import Mathlib

/-
Verification of the multi-platform publish pipeline of app/services/social_media.py
together with the configuration predicates of app/config.py.

Conventions of the shallow embedding:
* Python strings used as caption/message text are modelled as `List Char`
  (Python string slicing and `len` are character based).
* Python `Optional[str]` credentials are `Option String`; Python truthiness of
  an optional string ("None or empty is falsy") is `truthyStr`.
* The untyped result dictionaries are modelled as a structure `PostResult` in
  which every key that any code path may set is an `Option` field; a key that a
  given path does not set is `none`.  `dict.get ("success", False)` becomes
  `r.success.getD false`.
* The external network calls (instagrapi login / photo_upload, facebook GraphAPI
  construction + get_object / put_photo) are oracles passed in as explicit
  parameters (`InstaRemote`, `FbRemote`): a `Bool` for an authentication
  exchange (does it succeed or raise?) and an `Except String _` for the publish
  primitive (normal return value, or the message of the raised exception).
* Adapter state is the boolean session flag the code keeps
  (`self._logged_in`, `self._initialized`); each operation returns the result
  value, the new state, and flags recording whether the remote authentication
  exchange and the remote publish primitive were actually invoked.
-/

namespace App

/-- The social-media fields of `Settings` (app/config.py). -/
structure Settings where
  instagram_username : Option String
  instagram_password : Option String
  instagram_access_token : Option String
  instagram_account_id : Option String
  instagram_enabled : Bool
  facebook_access_token : Option String
  facebook_page_id : Option String
  facebook_enabled : Bool
deriving DecidableEq

/-- Python truthiness of an `Optional[str]`: `None` and `""` are falsy. -/
def truthyStr : Option String → Bool
  | none => false
  | some s => !s.isEmpty

/-- `Settings.is_instagram_configured` (app/config.py lines 124-132). -/
def Settings.is_instagram_configured (s : Settings) : Bool :=
  (truthyStr s.instagram_username && truthyStr s.instagram_password) ||
  (truthyStr s.instagram_access_token && truthyStr s.instagram_account_id)

/-- `Settings.is_facebook_configured` (app/config.py lines 134-136). -/
def Settings.is_facebook_configured (s : Settings) : Bool :=
  truthyStr s.facebook_access_token && truthyStr s.facebook_page_id

/-- `Settings.get_enabled_platforms` (app/config.py lines 138-145). -/
def Settings.get_enabled_platforms (s : Settings) : List String :=
  (if s.instagram_enabled && s.is_instagram_configured then ["instagram"] else []) ++
  (if s.facebook_enabled && s.is_facebook_configured then ["facebook"] else [])

/-- State of `InstagramService`: the `self._logged_in` flag. -/
structure InstaState where
  logged_in : Bool
deriving DecidableEq

/-- State of `FacebookService`: the `self._initialized` flag. -/
structure FbState where
  inited : Bool
deriving DecidableEq

/-- Outcome of an authentication operation: the returned boolean, the new
adapter state, and whether a remote credential exchange was actually begun. -/
structure AuthStep (σ : Type) where
  result : Bool
  state : σ
  attempted : Bool
deriving DecidableEq

/-- The media object returned by instagrapi `photo_upload`. -/
structure Media where
  id : String
  code : String
deriving DecidableEq

/-- Oracle for Instagram remote calls: does `client.login` succeed, and what
does `client.photo_upload` do (return a media object or raise). -/
structure InstaRemote where
  loginOk : Bool
  upload : Except String Media

/-- Oracle for Facebook remote calls: does GraphAPI construction plus the
`get_object` connection test succeed, and what does `put_photo` do (return a
response whose optional field is `id`, or raise). -/
structure FbRemote where
  initOk : Bool
  putPhoto : Except String (Option String)

/-- A result dictionary: each key any code path may set is an `Option` field. -/
structure PostResult where
  success : Option Bool := none
  platform : Option String := none
  error : Option String := none
  media_id : Option String := none
  media_code : Option String := none
  url : Option String := none
  caption_length : Option Nat := none
  hashtag_count : Option Nat := none
  post_id : Option String := none
  message_length : Option Nat := none
deriving DecidableEq

/-- `result.get ("success", False)` on a result dictionary. -/
def getSuccess (r : PostResult) : Bool := r.success.getD false

/-- The caption shaping shared by InstagramService.post_photo (lines 102-107)
and the coordinator's Facebook branch (lines 322-325): if the hashtag list is
truthy (present and nonempty), append the space-joined hashtags after a blank
line; otherwise keep the caption unchanged. -/
def buildFullCaption (caption : List Char) (hashtags : Option (List (List Char))) : List Char :=
  match hashtags with
  | none => caption
  | some hs =>
      if hs.isEmpty then caption
      else caption ++ ['\n', '\n'] ++ List.intercalate [' '] hs

/-- The Instagram length cap (lines 109-112): if the combined caption exceeds
2200 characters, keep the first 2197 and append "...". -/
def truncateCaption (s : List Char) : List Char :=
  if s.length > 2200 then s.take 2197 ++ ['.', '.', '.'] else s

/-- `InstagramService.login` (lines 34-67).  Fails fast (returning `False`,
with no credential exchange) when `is_instagram_configured` is false; returns
`True` at once when already logged in; otherwise performs the remote exchange,
setting `_logged_in` on success and leaving it clear on failure. -/
def InstagramService.login (s : Settings) (st : InstaState) (remoteOk : Bool) :
    AuthStep InstaState :=
  if !s.is_instagram_configured then ⟨false, st, false⟩
  else if st.logged_in then ⟨true, st, false⟩
  else if remoteOk then ⟨true, ⟨true⟩, true⟩
  else ⟨false, st, true⟩

/-- Outcome of a publish operation: the result dictionary, the new adapter
state, and whether the remote authentication exchange and the remote publish
primitive were invoked. -/
structure PublishStep (σ : Type) where
  result : PostResult
  state : σ
  auth_attempted : Bool
  upload_attempted : Bool
deriving DecidableEq

/-- The try-block of `InstagramService.post_photo` (lines 101-141): build and
truncate the caption, invoke `photo_upload`, and produce the success or the
exception-path failure dictionary. -/
def instaUpload (st : InstaState) (remote : InstaRemote) (caption : List Char)
    (hashtags : Option (List (List Char))) (auth_attempted : Bool) :
    PublishStep InstaState :=
  match remote.upload with
  | Except.ok media =>
      ⟨{ success := some true
         platform := some "instagram"
         media_id := some media.id
         media_code := some media.code
         url := some ("https://www.instagram.com/p/" ++ media.code ++ "/")
         caption_length := some (truncateCaption (buildFullCaption caption hashtags)).length
         hashtag_count := some (hashtags.getD []).length },
       st, auth_attempted, true⟩
  | Except.error msg =>
      ⟨{ success := some false, platform := some "instagram", error := some msg },
       st, auth_attempted, true⟩

/-- `InstagramService.post_photo` (lines 69-141): ensure logged in (returning
the bare not-logged-in failure when login fails), then run the upload block. -/
def InstagramService.post_photo (s : Settings) (st : InstaState) (remote : InstaRemote)
    (caption : List Char) (hashtags : Option (List (List Char))) :
    PublishStep InstaState :=
  if !st.logged_in then
    if !(InstagramService.login s st remote.loginOk).result then
      ⟨{ success := some false, error := some "Not logged in to Instagram" },
       (InstagramService.login s st remote.loginOk).state,
       (InstagramService.login s st remote.loginOk).attempted, false⟩
    else
      instaUpload (InstagramService.login s st remote.loginOk).state remote caption hashtags
        (InstagramService.login s st remote.loginOk).attempted
  else instaUpload st remote caption hashtags false

/-- `FacebookService.initialize` (lines 163-195), named `fbInit` here because
Lean reserves the source's method name as a keyword.  Fails fast when
`is_facebook_configured` is false; returns `True` at once when already
initialized; otherwise performs the remote exchange (GraphAPI construction and
the `get_object` connection test), setting `_initialized` only on success. -/
def fbInit (s : Settings) (st : FbState) (remoteOk : Bool) : AuthStep FbState :=
  if !s.is_facebook_configured then ⟨false, st, false⟩
  else if st.inited then ⟨true, st, false⟩
  else if remoteOk then ⟨true, ⟨true⟩, true⟩
  else ⟨false, st, true⟩

/-- The try-block of `FacebookService.post_photo` (lines 226-253): invoke
`put_photo` and produce the success or the exception-path failure dictionary;
`post_id` is `response.get ("id", "")`. -/
def fbUpload (st : FbState) (remote : FbRemote) (message : List Char)
    (auth_attempted : Bool) : PublishStep FbState :=
  match remote.putPhoto with
  | Except.ok rid =>
      ⟨{ success := some true
         platform := some "facebook"
         post_id := some (rid.getD "")
         message_length := some message.length },
       st, auth_attempted, true⟩
  | Except.error msg =>
      ⟨{ success := some false, platform := some "facebook", error := some msg },
       st, auth_attempted, true⟩

/-- `FacebookService.post_photo` (lines 197-253): ensure initialized (returning
the bare not-initialized failure when initialization fails), then run the
upload block. -/
def FacebookService.post_photo (s : Settings) (st : FbState) (remote : FbRemote)
    (message : List Char) : PublishStep FbState :=
  if !st.inited then
    if !(fbInit s st remote.initOk).result then
      ⟨{ success := some false, error := some "Facebook not initialized" },
       (fbInit s st remote.initOk).state, (fbInit s st remote.initOk).attempted, false⟩
    else
      fbUpload (fbInit s st remote.initOk).state remote message
        (fbInit s st remote.initOk).attempted
  else fbUpload st remote message false

/-- The summary block of the report (lines 335-357). -/
structure Summary where
  successful : List String
  failed : List String
  total_requested : Nat
  total_successful : Nat
  total_failed : Nat
deriving DecidableEq

/-- The dictionary returned by `post_to_platforms` (lines 299-365).  The
`results` dictionary is an association list in insertion order; the code
assigns each of the two possible keys at most once. -/
structure Report where
  requested_platforms : List String
  results : List (String × PostResult)
  overall_success : Bool
  summary : Summary
deriving DecidableEq

/-- Full outcome of a `post_to_platforms` call: the report plus the final
adapter states and the per-adapter remote-invocation flags. -/
structure CoordOut where
  report : Report
  igState : InstaState
  fbState : FbState
  ig_auth_attempted : Bool
  ig_upload_attempted : Bool
  fb_auth_attempted : Bool
  fb_upload_attempted : Bool
deriving DecidableEq

/-- Step 1 of `post_to_platforms` (lines 295-297): if "both" occurs anywhere in
the requested list, the list is replaced by the two concrete platforms;
otherwise it is kept as given (duplicates included). -/
def resolvePlatforms (platforms : List String) : List String :=
  if "both" ∈ platforms then ["instagram", "facebook"] else platforms

/-- The coordinator's Instagram availability check (line 307). -/
def igAvailable (s : Settings) : Bool :=
  s.instagram_enabled && s.is_instagram_configured

/-- The coordinator's Facebook availability check (line 319). -/
def fbAvailable (s : Settings) : Bool :=
  s.facebook_enabled && s.is_facebook_configured

/-- The skip entry recorded for an unavailable platform (lines 312-315 and
330-333). -/
def notConfiguredFailure (msg : String) : PostResult :=
  { success := some false, error := some msg }

/-- Entries contributed by one platform branch of the coordinator, with the
adapter state it leaves behind and the remote-invocation flags. -/
structure Branch (σ : Type) where
  entries : List (String × PostResult)
  state : σ
  auth_attempted : Bool
  upload_attempted : Bool
deriving DecidableEq

/-- A branch that invoked its adapter and recorded the returned entry. -/
def branchOf {σ : Type} (key : String) (p : PublishStep σ) : Branch σ :=
  ⟨[(key, p.result)], p.state, p.auth_attempted, p.upload_attempted⟩

/-- A branch that did not touch its adapter and recorded `entries`. -/
def branchSkip {σ : Type} (entries : List (String × PostResult)) (st : σ) : Branch σ :=
  ⟨entries, st, false, false⟩

/-- The Instagram branch of `post_to_platforms` (lines 305-315). -/
def igBranch (s : Settings) (st : InstaState) (remote : InstaRemote)
    (resolved : List String) (caption : List Char)
    (hashtags : Option (List (List Char))) : Branch InstaState :=
  if "instagram" ∈ resolved then
    if igAvailable s then
      branchOf "instagram" (InstagramService.post_photo s st remote caption hashtags)
    else branchSkip [("instagram", notConfiguredFailure "Instagram not configured or disabled")] st
  else branchSkip [] st

/-- The Facebook branch of `post_to_platforms` (lines 317-333); the message
handed to the adapter is the caption with the hashtag block appended. -/
def fbBranch (s : Settings) (st : FbState) (remote : FbRemote)
    (resolved : List String) (caption : List Char)
    (hashtags : Option (List (List Char))) : Branch FbState :=
  if "facebook" ∈ resolved then
    if fbAvailable s then
      branchOf "facebook" (FacebookService.post_photo s st remote (buildFullCaption caption hashtags))
    else branchSkip [("facebook", notConfiguredFailure "Facebook not configured or disabled")] st
  else branchSkip [] st

/-- Lines 335-357: `overall_success` and the summary are pure derivations of
the results dictionary and the resolved platform list. -/
def buildReport (resolved : List String) (results : List (String × PostResult)) : Report :=
  { requested_platforms := resolved
    results := results
    overall_success := results.any fun pr => getSuccess pr.2
    summary :=
      { successful := (results.filter fun pr => getSuccess pr.2).map Prod.fst
        failed := (results.filter fun pr => !getSuccess pr.2).map Prod.fst
        total_requested := resolved.length
        total_successful := ((results.filter fun pr => getSuccess pr.2).map Prod.fst).length
        total_failed := ((results.filter fun pr => !getSuccess pr.2).map Prod.fst).length } }

/-- `SocialMediaService.post_to_platforms` (lines 268-365). -/
def SocialMediaService.post_to_platforms (s : Settings) (igState : InstaState)
    (fbState : FbState) (igRemote : InstaRemote) (fbRemote : FbRemote)
    (platforms : List String) (caption : List Char)
    (hashtags : Option (List (List Char))) : CoordOut :=
  { report := buildReport (resolvePlatforms platforms)
      ((igBranch s igState igRemote (resolvePlatforms platforms) caption hashtags).entries ++
       (fbBranch s fbState fbRemote (resolvePlatforms platforms) caption hashtags).entries)
    igState := (igBranch s igState igRemote (resolvePlatforms platforms) caption hashtags).state
    fbState := (fbBranch s fbState fbRemote (resolvePlatforms platforms) caption hashtags).state
    ig_auth_attempted :=
      (igBranch s igState igRemote (resolvePlatforms platforms) caption hashtags).auth_attempted
    ig_upload_attempted :=
      (igBranch s igState igRemote (resolvePlatforms platforms) caption hashtags).upload_attempted
    fb_auth_attempted :=
      (fbBranch s fbState fbRemote (resolvePlatforms platforms) caption hashtags).auth_attempted
    fb_upload_attempted :=
      (fbBranch s fbState fbRemote (resolvePlatforms platforms) caption hashtags).upload_attempted }

/-! Concrete fixtures used by witnesses and counterexamples. -/

/-- Settings with no credentials at all (both platforms enabled). -/
def s0 : Settings := ⟨none, none, none, none, true, none, none, true⟩

/-- Settings with complete Instagram credentials, Instagram enabled. -/
def sIG : Settings := ⟨some "u", some "p", none, none, true, none, none, true⟩

/-- Settings with complete Instagram credentials but Instagram disabled. -/
def sDis : Settings := ⟨some "u", some "p", none, none, false, none, none, true⟩

/-- A remote oracle on which every Instagram call fails. -/
def r0 : InstaRemote := ⟨false, Except.error "network down"⟩

/-- A remote oracle on which every Facebook call fails. -/
def f0 : FbRemote := ⟨false, Except.error "network down"⟩

/-- A remote oracle on which every Instagram call succeeds. -/
def rOk : InstaRemote := ⟨true, Except.ok ⟨"321", "CODE"⟩⟩

/-- A remote oracle on which every Facebook call succeeds. -/
def fOk : FbRemote := ⟨true, Except.ok (some "123")⟩

/-! Projection lemmas for the coordinator: each field of the returned structure
is the corresponding branch computation. -/

theorem post_report_results (s : Settings) (igState : InstaState) (fbState : FbState)
    (igRemote : InstaRemote) (fbRemote : FbRemote) (platforms : List String)
    (caption : List Char) (hashtags : Option (List (List Char))) :
    (SocialMediaService.post_to_platforms s igState fbState igRemote fbRemote
        platforms caption hashtags).report.results =
      (igBranch s igState igRemote (resolvePlatforms platforms) caption hashtags).entries ++
      (fbBranch s fbState fbRemote (resolvePlatforms platforms) caption hashtags).entries := rfl

theorem post_report_overall (s : Settings) (igState : InstaState) (fbState : FbState)
    (igRemote : InstaRemote) (fbRemote : FbRemote) (platforms : List String)
    (caption : List Char) (hashtags : Option (List (List Char))) :
    (SocialMediaService.post_to_platforms s igState fbState igRemote fbRemote
        platforms caption hashtags).report.overall_success =
      ((SocialMediaService.post_to_platforms s igState fbState igRemote fbRemote
          platforms caption hashtags).report.results.any fun pr => getSuccess pr.2) := rfl

theorem getSuccess_eq_true (r : PostResult) : getSuccess r = true ↔ r.success = some true := by
  cases h : r.success <;> simp [getSuccess, h]

/-! Shape lemmas for the two coordinator branches. -/

theorem igBranch_entries_eq (s : Settings) (st : InstaState) (remote : InstaRemote)
    (resolved : List String) (caption : List Char) (hashtags : Option (List (List Char))) :
    (igBranch s st remote resolved caption hashtags).entries =
      if "instagram" ∈ resolved then
        (if igAvailable s then
          [("instagram", (InstagramService.post_photo s st remote caption hashtags).result)]
         else [("instagram", notConfiguredFailure "Instagram not configured or disabled")])
      else [] := by
  unfold igBranch
  by_cases hi : "instagram" ∈ resolved <;> cases ha : igAvailable s <;>
    simp [hi, ha, branchOf, branchSkip]

theorem fbBranch_entries_eq (s : Settings) (st : FbState) (remote : FbRemote)
    (resolved : List String) (caption : List Char) (hashtags : Option (List (List Char))) :
    (fbBranch s st remote resolved caption hashtags).entries =
      if "facebook" ∈ resolved then
        (if fbAvailable s then
          [("facebook", (FacebookService.post_photo s st remote
              (buildFullCaption caption hashtags)).result)]
         else [("facebook", notConfiguredFailure "Facebook not configured or disabled")])
      else [] := by
  unfold fbBranch
  by_cases hf : "facebook" ∈ resolved <;> cases ha : fbAvailable s <;>
    simp [hf, ha, branchOf, branchSkip]

theorem igBranch_keys (s : Settings) (st : InstaState) (remote : InstaRemote)
    (resolved : List String) (caption : List Char) (hashtags : Option (List (List Char))) :
    (igBranch s st remote resolved caption hashtags).entries.map Prod.fst =
      if "instagram" ∈ resolved then ["instagram"] else [] := by
  rw [igBranch_entries_eq]
  by_cases hi : "instagram" ∈ resolved <;> cases ha : igAvailable s <;> simp [hi, ha]

theorem fbBranch_keys (s : Settings) (st : FbState) (remote : FbRemote)
    (resolved : List String) (caption : List Char) (hashtags : Option (List (List Char))) :
    (fbBranch s st remote resolved caption hashtags).entries.map Prod.fst =
      if "facebook" ∈ resolved then ["facebook"] else [] := by
  rw [fbBranch_entries_eq]
  by_cases hf : "facebook" ∈ resolved <;> cases ha : fbAvailable s <;> simp [hf, ha]

theorem post_keys (s : Settings) (igState : InstaState) (fbState : FbState)
    (igRemote : InstaRemote) (fbRemote : FbRemote) (platforms : List String)
    (caption : List Char) (hashtags : Option (List (List Char))) :
    (SocialMediaService.post_to_platforms s igState fbState igRemote fbRemote
        platforms caption hashtags).report.results.map Prod.fst =
      (if "instagram" ∈ resolvePlatforms platforms then ["instagram"] else []) ++
      (if "facebook" ∈ resolvePlatforms platforms then ["facebook"] else []) := by
  rw [post_report_results, List.map_append, igBranch_keys, fbBranch_keys]

/-! Claim C8: the Instagram length cap. -/

/-- C8: for the Instagram cap of 2200 characters, a combined caption of length
at most 2200 is left unchanged; a longer one is truncated to exactly 2200
characters ending in "..."; the truncation is idempotent.  (`truncateCaption`
is a total function, so no error is ever produced for length.) -/
theorem instagram_truncation_cap (s : List Char) :
    (s.length ≤ 2200 → truncateCaption s = s) ∧
    (s.length > 2200 →
      (truncateCaption s).length = 2200 ∧ ['.', '.', '.'] <:+ truncateCaption s) ∧
    truncateCaption (truncateCaption s) = truncateCaption s := by
  have hshort : ∀ t : List Char, t.length ≤ 2200 → truncateCaption t = t := by
    intro t ht
    simp only [truncateCaption, if_neg (Nat.not_lt.2 ht)]
  have hlongeq : s.length > 2200 → truncateCaption s = s.take 2197 ++ ['.', '.', '.'] := by
    intro h
    simp only [truncateCaption, if_pos h]
  have hlonglen : s.length > 2200 → (truncateCaption s).length = 2200 := by
    intro h
    rw [hlongeq h, List.length_append, List.length_take,
        Nat.min_eq_left (by omega : 2197 ≤ s.length)]
    rfl
  refine ⟨hshort s, fun h => ⟨hlonglen h, ?_⟩, ?_⟩
  · rw [hlongeq h]
    exact List.suffix_append _ _
  · by_cases h : s.length > 2200
    · exact hshort _ (by rw [hlonglen h])
    · have hs := hshort s (Nat.not_lt.1 h)
      rw [hs]
      exact hs

/-- Witness for C8: the 5-character caption is untouched, and a 2300-character
caption is cut to exactly 2200 characters. -/
theorem instagram_truncation_cap_witness :
    truncateCaption "Hello".data = "Hello".data ∧
    (truncateCaption (List.replicate 2300 'a')).length = 2200 :=
  ⟨(instagram_truncation_cap ("Hello".data)).1 (by decide),
   ((instagram_truncation_cap (List.replicate 2300 'a')).2.1
      (by rw [List.length_replicate]; omega)).1⟩

/-! Claim C2: overall_success. -/

/-- C2: for every report returned by `post_to_platforms`, `overall_success` is
true if and only if some entry of the results mapping has `success = true`; in
particular it is false when the mapping is empty or all entries are failures. -/
theorem overall_success_iff (s : Settings) (igState : InstaState) (fbState : FbState)
    (igRemote : InstaRemote) (fbRemote : FbRemote) (platforms : List String)
    (caption : List Char) (hashtags : Option (List (List Char))) :
    (SocialMediaService.post_to_platforms s igState fbState igRemote fbRemote
        platforms caption hashtags).report.overall_success = true ↔
      ∃ p r, (p, r) ∈ (SocialMediaService.post_to_platforms s igState fbState igRemote
        fbRemote platforms caption hashtags).report.results ∧ r.success = some true := by
  rw [post_report_overall, List.any_eq_true]
  constructor
  · rintro ⟨⟨p, r⟩, hmem, hs⟩
    exact ⟨p, r, hmem, (getSuccess_eq_true r).1 hs⟩
  · rintro ⟨p, r, hmem, hs⟩
    exact ⟨(p, r), hmem, (getSuccess_eq_true r).2 hs⟩

/-! Counterexamples refuting the claims the code does not satisfy. -/

/-- Counterexample to C3: requesting the unknown identifier "tiktok" does not
raise; `post_to_platforms` returns a normal report in which the unknown
identifier is silently absorbed (it is absent from `results` yet still counted
by `total_requested`). -/
theorem unknown_platform_returns_report :
    (SocialMediaService.post_to_platforms s0 ⟨false⟩ ⟨false⟩ r0 f0
        ["tiktok"] [] none).report.results = [] ∧
    (SocialMediaService.post_to_platforms s0 ⟨false⟩ ⟨false⟩ r0 f0
        ["tiktok"] [] none).report.summary.total_requested = 1 ∧
    (SocialMediaService.post_to_platforms s0 ⟨false⟩ ⟨false⟩ r0 f0
        ["tiktok"] [] none).report.requested_platforms = ["tiktok"] := ⟨rfl, rfl, rfl⟩

/-- Counterexample to C4: on the not-authenticated path the Instagram adapter
returns a failure dictionary that does not name the platform (no `platform`
key is set). -/
theorem not_logged_in_failure_lacks_platform :
    (InstagramService.post_photo s0 ⟨false⟩ r0 [] none).result.success = some false ∧
    (InstagramService.post_photo s0 ⟨false⟩ r0 [] none).result.platform = none ∧
    (InstagramService.post_photo s0 ⟨false⟩ r0 [] none).result.error =
      some "Not logged in to Instagram" := ⟨rfl, rfl, rfl⟩

/-- Counterexample to C5: after a publish call whose remote submission raises
an authentication error, the Instagram adapter's logged-in flag is NOT
cleared — the session state stays `logged_in = true`. -/
theorem publish_error_does_not_downgrade :
    (InstagramService.post_photo sIG ⟨true⟩ ⟨true, Except.error "login_required"⟩
        [] none).state.logged_in = true ∧
    (InstagramService.post_photo sIG ⟨true⟩ ⟨true, Except.error "login_required"⟩
        [] none).result.success = some false := ⟨rfl, rfl⟩

/-- Counterexample to C6: with Instagram disabled but its credentials complete,
`login` still performs the remote credential exchange and succeeds — the
enabled flag is never consulted by the adapter. -/
theorem login_on_disabled_platform :
    InstagramService.login sDis ⟨false⟩ true = ⟨true, ⟨true⟩, true⟩ ∧
    sDis.instagram_enabled = false ∧ sDis.is_instagram_configured = true :=
  ⟨rfl, rfl, by decide⟩

/-- Counterexample to C7: a successful Facebook publish returns a result with
no canonical URL — the `url` key is never set by the Facebook adapter. -/
theorem facebook_success_lacks_url :
    (FacebookService.post_photo s0 ⟨true⟩ fOk "hi".data).result.success = some true ∧
    (FacebookService.post_photo s0 ⟨true⟩ fOk "hi".data).result.url = none ∧
    (FacebookService.post_photo s0 ⟨true⟩ fOk "hi".data).result.post_id =
      some "123" := ⟨rfl, rfl, rfl⟩

/-- Counterexample to C9: requesting ["instagram", "instagram"] is not
deduplicated — `summary.total_requested` is 2 while the results mapping has a
single entry, so `total_requested` differs from the number of distinct
resolved platforms. -/
theorem duplicate_request_not_deduplicated :
    (SocialMediaService.post_to_platforms s0 ⟨false⟩ ⟨false⟩ r0 f0
        ["instagram", "instagram"] [] none).report.summary.total_requested = 2 ∧
    (SocialMediaService.post_to_platforms s0 ⟨false⟩ ⟨false⟩ r0 f0
        ["instagram", "instagram"] [] none).report.results.length = 1 := ⟨rfl, rfl⟩

theorem igBranch_unavailable (s : Settings) (st : InstaState) (remote : InstaRemote)
    (resolved : List String) (caption : List Char) (hashtags : Option (List (List Char)))
    (hi : "instagram" ∈ resolved) (ha : igAvailable s = false) :
    igBranch s st remote resolved caption hashtags =
      branchSkip [("instagram", notConfiguredFailure "Instagram not configured or disabled")]
        st := by
  unfold igBranch
  rw [if_pos hi, if_neg (by simp [ha])]

theorem fbBranch_unavailable (s : Settings) (st : FbState) (remote : FbRemote)
    (resolved : List String) (caption : List Char) (hashtags : Option (List (List Char)))
    (hf : "facebook" ∈ resolved) (ha : fbAvailable s = false) :
    fbBranch s st remote resolved caption hashtags =
      branchSkip [("facebook", notConfiguredFailure "Facebook not configured or disabled")]
        st := by
  unfold fbBranch
  rw [if_pos hf, if_neg (by simp [ha])]

/-! Claim C1: coverage of the resolved platform set, and the skip path for
unavailable platforms. -/

/-- C1: for a request drawn only from the known identifiers, every platform of
the post-"both"-expansion resolved set appears exactly once as a key of the
results mapping; an unavailable platform (disabled or credentials incomplete)
receives a Failure entry whose reason reads "<Platform> not configured or
disabled" (so the reason ends in the spec's "not configured or disabled"),
and its adapter's authentication and publish operations are never invoked. -/
theorem resolved_platforms_covered
    (s : Settings) (igState : InstaState) (fbState : FbState)
    (igRemote : InstaRemote) (fbRemote : FbRemote) (platforms : List String)
    (caption : List Char) (hashtags : Option (List (List Char)))
    (hknown : ∀ p ∈ platforms, p = "instagram" ∨ p = "facebook" ∨ p = "both") :
    (∀ p ∈ resolvePlatforms platforms,
      ((SocialMediaService.post_to_platforms s igState fbState igRemote fbRemote
          platforms caption hashtags).report.results.map Prod.fst).count p = 1) ∧
    ("instagram" ∈ resolvePlatforms platforms → igAvailable s = false →
      ("instagram", notConfiguredFailure "Instagram not configured or disabled") ∈
        (SocialMediaService.post_to_platforms s igState fbState igRemote fbRemote
          platforms caption hashtags).report.results ∧
      (notConfiguredFailure "Instagram not configured or disabled").success = some false ∧
      (notConfiguredFailure "Instagram not configured or disabled").error =
        some "Instagram not configured or disabled" ∧
      "not configured or disabled".data <:+ "Instagram not configured or disabled".data ∧
      (SocialMediaService.post_to_platforms s igState fbState igRemote fbRemote
          platforms caption hashtags).ig_auth_attempted = false ∧
      (SocialMediaService.post_to_platforms s igState fbState igRemote fbRemote
          platforms caption hashtags).ig_upload_attempted = false) ∧
    ("facebook" ∈ resolvePlatforms platforms → fbAvailable s = false →
      ("facebook", notConfiguredFailure "Facebook not configured or disabled") ∈
        (SocialMediaService.post_to_platforms s igState fbState igRemote fbRemote
          platforms caption hashtags).report.results ∧
      (notConfiguredFailure "Facebook not configured or disabled").success = some false ∧
      (notConfiguredFailure "Facebook not configured or disabled").error =
        some "Facebook not configured or disabled" ∧
      "not configured or disabled".data <:+ "Facebook not configured or disabled".data ∧
      (SocialMediaService.post_to_platforms s igState fbState igRemote fbRemote
          platforms caption hashtags).fb_auth_attempted = false ∧
      (SocialMediaService.post_to_platforms s igState fbState igRemote fbRemote
          platforms caption hashtags).fb_upload_attempted = false) := by
  refine ⟨?_, ?_, ?_⟩
  · intro p hp
    rw [post_keys]
    by_cases hb : "both" ∈ platforms
    · unfold resolvePlatforms at hp ⊢
      rw [if_pos hb] at hp ⊢
      simp only [List.mem_cons, List.not_mem_nil, or_false] at hp
      rcases hp with rfl | rfl <;> decide
    · unfold resolvePlatforms at hp ⊢
      rw [if_neg hb] at hp ⊢
      rcases hknown p hp with rfl | rfl | rfl
      · rw [if_pos hp]
        by_cases hf : "facebook" ∈ platforms
        · rw [if_pos hf]; decide
        · rw [if_neg hf]; decide
      · rw [if_pos hp]
        by_cases hi : "instagram" ∈ platforms
        · rw [if_pos hi]; decide
        · rw [if_neg hi]; decide
      · exact absurd hp hb
  · intro hi ha
    refine ⟨?_, rfl, rfl, ⟨"Instagram ".data, by decide⟩, ?_, ?_⟩
    · rw [post_report_results]
      apply List.mem_append_left
      rw [igBranch_unavailable s igState igRemote _ caption hashtags hi ha]
      exact List.mem_singleton_self _
    · show (igBranch s igState igRemote (resolvePlatforms platforms) caption
        hashtags).auth_attempted = false
      rw [igBranch_unavailable s igState igRemote _ caption hashtags hi ha]
      rfl
    · show (igBranch s igState igRemote (resolvePlatforms platforms) caption
        hashtags).upload_attempted = false
      rw [igBranch_unavailable s igState igRemote _ caption hashtags hi ha]
      rfl
  · intro hf ha
    refine ⟨?_, rfl, rfl, ⟨"Facebook ".data, by decide⟩, ?_, ?_⟩
    · rw [post_report_results]
      apply List.mem_append_right
      rw [fbBranch_unavailable s fbState fbRemote _ caption hashtags hf ha]
      exact List.mem_singleton_self _
    · show (fbBranch s fbState fbRemote (resolvePlatforms platforms) caption
        hashtags).auth_attempted = false
      rw [fbBranch_unavailable s fbState fbRemote _ caption hashtags hf ha]
      rfl
    · show (fbBranch s fbState fbRemote (resolvePlatforms platforms) caption
        hashtags).upload_attempted = false
      rw [fbBranch_unavailable s fbState fbRemote _ caption hashtags hf ha]
      rfl

/-- Witness for C1: on the all-unconfigured settings, requesting ["both"] gives
the key "instagram" exactly once, with the skip Failure entry present and the
Instagram adapter untouched. -/
theorem resolved_platforms_covered_witness :
    ((SocialMediaService.post_to_platforms s0 ⟨false⟩ ⟨false⟩ r0 f0 ["both"] []
        none).report.results.map Prod.fst).count "instagram" = 1 ∧
    ("instagram", notConfiguredFailure "Instagram not configured or disabled") ∈
      (SocialMediaService.post_to_platforms s0 ⟨false⟩ ⟨false⟩ r0 f0 ["both"] []
        none).report.results ∧
    (SocialMediaService.post_to_platforms s0 ⟨false⟩ ⟨false⟩ r0 f0 ["both"] []
        none).ig_auth_attempted = false :=
  ⟨(resolved_platforms_covered s0 ⟨false⟩ ⟨false⟩ r0 f0 ["both"] [] none
      (by decide)).1 "instagram" (by decide),
   ((resolved_platforms_covered s0 ⟨false⟩ ⟨false⟩ r0 f0 ["both"] [] none
      (by decide)).2.1 (by decide) (by decide)).1,
   ((resolved_platforms_covered s0 ⟨false⟩ ⟨false⟩ r0 f0 ["both"] [] none
      (by decide)).2.1 (by decide) (by decide)).2.2.2.2.1⟩

/-! Claim C3 (amended): unknown identifiers are silently ignored. -/

/-- C3 (amended): a platform identifier outside the known concrete set never
appears as a key of `results`, but no error is raised either: the call always
returns a normal report and the unknown identifier is silently absorbed. -/
theorem unknown_platform_never_a_key
    (s : Settings) (igState : InstaState) (fbState : FbState)
    (igRemote : InstaRemote) (fbRemote : FbRemote) (platforms : List String)
    (caption : List Char) (hashtags : Option (List (List Char)))
    (q : String) (hq1 : q ≠ "instagram") (hq2 : q ≠ "facebook") :
    q ∉ (SocialMediaService.post_to_platforms s igState fbState igRemote fbRemote
        platforms caption hashtags).report.results.map Prod.fst := by
  rw [post_keys]
  intro hmem
  rcases List.mem_append.1 hmem with h | h
  · by_cases hi : "instagram" ∈ resolvePlatforms platforms
    · rw [if_pos hi] at h
      exact hq1 (List.mem_singleton.1 h)
    · rw [if_neg hi] at h
      exact absurd h (List.not_mem_nil q)
  · by_cases hf : "facebook" ∈ resolvePlatforms platforms
    · rw [if_pos hf] at h
      exact hq2 (List.mem_singleton.1 h)
    · rw [if_neg hf] at h
      exact absurd h (List.not_mem_nil q)

/-- Witness for C3 (amended): "tiktok" is not a key of the results of a call
requesting ["tiktok", "instagram"]. -/
theorem unknown_platform_never_a_key_witness :
    "tiktok" ∉ (SocialMediaService.post_to_platforms s0 ⟨false⟩ ⟨false⟩ r0 f0
        ["tiktok", "instagram"] [] none).report.results.map Prod.fst :=
  unknown_platform_never_a_key s0 ⟨false⟩ ⟨false⟩ r0 f0 ["tiktok", "instagram"] [] none
    "tiktok" (by decide) (by decide)

/-! Claim C9 (amended): step 1 resolution and total_requested. -/

/-- C9 (amended): step 1 replaces the list by ["instagram", "facebook"] when
"both" occurs, but otherwise performs no deduplication.  The results mapping
nonetheless holds each concrete platform at most once (its keys are exactly
the concrete platforms present in the resolved list, in fixed order), while
`summary.total_requested` is the length of the resolved list, duplicates
included — so it can exceed the number of entries in `results`. -/
theorem step_one_resolution
    (s : Settings) (igState : InstaState) (fbState : FbState)
    (igRemote : InstaRemote) (fbRemote : FbRemote) (platforms : List String)
    (caption : List Char) (hashtags : Option (List (List Char))) :
    (SocialMediaService.post_to_platforms s igState fbState igRemote fbRemote
        platforms caption hashtags).report.results.map Prod.fst =
      (if "instagram" ∈ resolvePlatforms platforms then ["instagram"] else []) ++
      (if "facebook" ∈ resolvePlatforms platforms then ["facebook"] else []) ∧
    (SocialMediaService.post_to_platforms s igState fbState igRemote fbRemote
        platforms caption hashtags).report.summary.total_requested =
      (resolvePlatforms platforms).length ∧
    ("both" ∈ platforms → resolvePlatforms platforms = ["instagram", "facebook"]) := by
  refine ⟨post_keys s igState fbState igRemote fbRemote platforms caption hashtags, rfl, ?_⟩
  intro hb
  unfold resolvePlatforms
  rw [if_pos hb]

/-- Witness for C9 (amended): for the duplicated request
["instagram", "instagram"], total_requested is the resolved list's length 2. -/
theorem step_one_resolution_witness :
    (SocialMediaService.post_to_platforms s0 ⟨false⟩ ⟨false⟩ r0 f0
        ["instagram", "instagram"] [] none).report.summary.total_requested =
      (resolvePlatforms ["instagram", "instagram"]).length :=
  (step_one_resolution s0 ⟨false⟩ ⟨false⟩ r0 f0 ["instagram", "instagram"] [] none).2.1

/-! Generic lemmas about the summary derivation, used for claim C10. -/

theorem mem_sucKeys (rs : List (String × PostResult)) (p : String) :
    (p ∈ (rs.filter fun pr => getSuccess pr.2).map Prod.fst) ↔
      ∃ r, (p, r) ∈ rs ∧ r.success.getD false = true := by
  constructor
  · intro h
    obtain ⟨⟨q, r⟩, hqr, hq⟩ := List.mem_map.1 h
    obtain ⟨hmem, hgs⟩ := List.mem_filter.1 hqr
    cases hq
    exact ⟨r, hmem, hgs⟩
  · rintro ⟨r, hmem, hgs⟩
    exact List.mem_map.2 ⟨(p, r), List.mem_filter.2 ⟨hmem, hgs⟩, rfl⟩

theorem mem_failKeys (rs : List (String × PostResult)) (p : String) :
    (p ∈ (rs.filter fun pr => !getSuccess pr.2).map Prod.fst) ↔
      ∃ r, (p, r) ∈ rs ∧ r.success.getD false = false := by
  constructor
  · intro h
    obtain ⟨⟨q, r⟩, hqr, hq⟩ := List.mem_map.1 h
    obtain ⟨hmem, hgs⟩ := List.mem_filter.1 hqr
    cases hq
    exact ⟨r, hmem, by simpa [getSuccess] using hgs⟩
  · rintro ⟨r, hmem, hgs⟩
    exact List.mem_map.2 ⟨(p, r), List.mem_filter.2 ⟨hmem, by simp [getSuccess, hgs]⟩, rfl⟩

theorem length_filter_add_length_filter_not {α : Type} (l : List α) (f : α → Bool) :
    (l.filter f).length + (l.filter fun x => !f x).length = l.length := by
  induction l with
  | nil => rfl
  | cons a t ih =>
      cases hf : f a <;> simp [List.filter_cons, hf, ← ih] <;> omega

theorem buildReport_totals (res : List String) (rs : List (String × PostResult)) :
    (buildReport res rs).summary.total_successful +
      (buildReport res rs).summary.total_failed = rs.length := by
  show ((rs.filter fun pr => getSuccess pr.2).map Prod.fst).length +
    ((rs.filter fun pr => !getSuccess pr.2).map Prod.fst).length = rs.length
  rw [List.length_map, List.length_map]
  exact length_filter_add_length_filter_not _ _

theorem partition_of_nodup_keys (rs : List (String × PostResult))
    (hnd : (rs.map Prod.fst).Nodup) (p : String) (hp : p ∈ rs.map Prod.fst) :
    ((p ∈ (rs.filter fun pr => getSuccess pr.2).map Prod.fst) ∧
       p ∉ (rs.filter fun pr => !getSuccess pr.2).map Prod.fst) ∨
    ((p ∈ (rs.filter fun pr => !getSuccess pr.2).map Prod.fst) ∧
       p ∉ (rs.filter fun pr => getSuccess pr.2).map Prod.fst) := by
  obtain ⟨⟨q, r⟩, hqr, hq⟩ := List.mem_map.1 hp
  cases hq
  have huniq : ∀ r', (q, r') ∈ rs → r' = r := by
    intro r' hr'
    have := List.inj_on_of_nodup_map hnd hr' hqr (by rfl)
    exact congrArg Prod.snd this
  cases hgs : r.success.getD false with
  | true =>
      left
      refine ⟨(mem_sucKeys rs q).2 ⟨r, hqr, hgs⟩, ?_⟩
      intro hmem
      obtain ⟨r', hr', hgs'⟩ := (mem_failKeys rs q).1 hmem
      rw [huniq r' hr'] at hgs'
      rw [hgs] at hgs'
      exact absurd hgs' (by simp)
  | false =>
      right
      refine ⟨(mem_failKeys rs q).2 ⟨r, hqr, hgs⟩, ?_⟩
      intro hmem
      obtain ⟨r', hr', hgs'⟩ := (mem_sucKeys rs q).1 hmem
      rw [huniq r' hr'] at hgs'
      rw [hgs] at hgs'
      exact absurd hgs' (by simp)

theorem post_keys_nodup (s : Settings) (igState : InstaState) (fbState : FbState)
    (igRemote : InstaRemote) (fbRemote : FbRemote) (platforms : List String)
    (caption : List Char) (hashtags : Option (List (List Char))) :
    ((SocialMediaService.post_to_platforms s igState fbState igRemote fbRemote
        platforms caption hashtags).report.results.map Prod.fst).Nodup := by
  rw [post_keys]
  by_cases hi : "instagram" ∈ resolvePlatforms platforms <;>
    by_cases hf : "facebook" ∈ resolvePlatforms platforms <;>
      simp [hi, hf]

/-! Claim C10: the summary partitions the results mapping. -/

/-- C10: for every report of `post_to_platforms`, `summary.successful` holds
exactly the keys whose entry has success true (with a missing success field
counting as failed, via `get ("success", False)`), `summary.failed` exactly
those whose entry does not, the totals are the lengths of the two lists, the
totals sum to the number of results entries, and every results key belongs to
exactly one of the two lists. -/
theorem summary_partitions_results
    (s : Settings) (igState : InstaState) (fbState : FbState)
    (igRemote : InstaRemote) (fbRemote : FbRemote) (platforms : List String)
    (caption : List Char) (hashtags : Option (List (List Char))) (out : CoordOut)
    (hout : SocialMediaService.post_to_platforms s igState fbState igRemote fbRemote
        platforms caption hashtags = out) :
    (∀ p, p ∈ out.report.summary.successful ↔
        ∃ r, (p, r) ∈ out.report.results ∧ r.success.getD false = true) ∧
    (∀ p, p ∈ out.report.summary.failed ↔
        ∃ r, (p, r) ∈ out.report.results ∧ r.success.getD false = false) ∧
    out.report.summary.total_successful = out.report.summary.successful.length ∧
    out.report.summary.total_failed = out.report.summary.failed.length ∧
    out.report.summary.total_successful + out.report.summary.total_failed =
      out.report.results.length ∧
    (∀ p ∈ out.report.results.map Prod.fst,
      (p ∈ out.report.summary.successful ∧ p ∉ out.report.summary.failed) ∨
      (p ∈ out.report.summary.failed ∧ p ∉ out.report.summary.successful)) := by
  subst hout
  refine ⟨fun p => mem_sucKeys _ p, fun p => mem_failKeys _ p, rfl, rfl, ?_, ?_⟩
  · exact buildReport_totals _ _
  · intro p hp
    exact partition_of_nodup_keys _
      (post_keys_nodup s igState fbState igRemote fbRemote platforms caption hashtags) p hp

/-- Witness for C10: the totals of the ["both"] request on unconfigured
settings sum to the number of results entries. -/
theorem summary_partitions_results_witness :
    (SocialMediaService.post_to_platforms s0 ⟨false⟩ ⟨false⟩ r0 f0 ["both"] []
        none).report.summary.total_successful +
      (SocialMediaService.post_to_platforms s0 ⟨false⟩ ⟨false⟩ r0 f0 ["both"] []
        none).report.summary.total_failed =
      (SocialMediaService.post_to_platforms s0 ⟨false⟩ ⟨false⟩ r0 f0 ["both"] []
        none).report.results.length :=
  (summary_partitions_results s0 ⟨false⟩ ⟨false⟩ r0 f0 ["both"] [] none _ rfl).2.2.2.2.1

/-! Claim C4 (amended): the adapter error boundary and the shapes a publish
result can take. -/

/-- The three result shapes `InstagramService.post_photo` can produce: the
fully-populated success, the exception-path failure naming the platform, or
the not-logged-in failure that carries only the reason. -/
def instaResultShape (r : PostResult) : Prop :=
  (r.success = some true ∧ r.platform = some "instagram" ∧ r.error = none ∧
     r.media_id.isSome = true ∧ r.media_code.isSome = true ∧ r.url.isSome = true ∧
     r.caption_length.isSome = true ∧ r.hashtag_count.isSome = true) ∨
  (∃ msg, r.success = some false ∧ r.platform = some "instagram" ∧ r.error = some msg) ∨
  r = { success := some false, error := some "Not logged in to Instagram" }

/-- The three result shapes `FacebookService.post_photo` can produce. -/
def fbResultShape (r : PostResult) : Prop :=
  (r.success = some true ∧ r.platform = some "facebook" ∧ r.error = none ∧
     r.post_id.isSome = true ∧ r.message_length.isSome = true) ∨
  (∃ msg, r.success = some false ∧ r.platform = some "facebook" ∧ r.error = some msg) ∨
  r = { success := some false, error := some "Facebook not initialized" }

theorem instaUpload_shape (st : InstaState) (remote : InstaRemote) (caption : List Char)
    (hashtags : Option (List (List Char))) (a : Bool) :
    instaResultShape (instaUpload st remote caption hashtags a).result := by
  cases hu : remote.upload with
  | ok m =>
      left
      simp [instaUpload, hu]
  | error msg =>
      right; left
      exact ⟨msg, by simp [instaUpload, hu]⟩

theorem fbUpload_shape (st : FbState) (remote : FbRemote) (message : List Char) (a : Bool) :
    fbResultShape (fbUpload st remote message a).result := by
  cases hu : remote.putPhoto with
  | ok rid =>
      left
      simp [fbUpload, hu]
  | error msg =>
      right; left
      exact ⟨msg, by simp [fbUpload, hu]⟩

/-- C4 (amended): every publish call on either adapter returns (never raises)
exactly one result shape: a fully-populated Success naming the platform, an
exception-path Failure naming the platform and a reason, or the
not-authenticated Failure — which carries the reason but, contrary to the
original claim, does not name the platform. -/
theorem adapter_error_boundary (s : Settings) (igSt : InstaState) (fbSt : FbState)
    (igR : InstaRemote) (fbR : FbRemote) (caption message : List Char)
    (hashtags : Option (List (List Char))) :
    instaResultShape (InstagramService.post_photo s igSt igR caption hashtags).result ∧
    fbResultShape (FacebookService.post_photo s fbSt fbR message).result := by
  constructor
  · unfold InstagramService.post_photo
    cases hl : igSt.logged_in
    · cases hr : (InstagramService.login s igSt igR.loginOk).result
      · simp only [hl, hr, Bool.not_false, Bool.not_true, if_true, if_false]
        exact Or.inr (Or.inr rfl)
      · simp only [hl, hr, Bool.not_false, Bool.not_true, if_true, if_false]
        exact instaUpload_shape _ _ _ _ _
    · simp only [hl, Bool.not_true, Bool.false_eq_true, if_false]
      exact instaUpload_shape _ _ _ _ _
  · unfold FacebookService.post_photo
    cases hl : fbSt.inited
    · cases hr : (fbInit s fbSt fbR.initOk).result
      · simp only [hl, hr, Bool.not_false, Bool.not_true, if_true, if_false]
        exact Or.inr (Or.inr rfl)
      · simp only [hl, hr, Bool.not_false, Bool.not_true, if_true, if_false]
        exact fbUpload_shape _ _ _ _
    · simp only [hl, Bool.not_true, Bool.false_eq_true, if_false]
      exact fbUpload_shape _ _ _ _

/-! Claim C5 (amended): a publish-time error does NOT downgrade the session. -/

/-- C5 (amended): after a publish call whose remote submission raises, the
adapter's session flag remains set (the state is not downgraded), and the next
publish call on that state skips re-authentication, reusing the session — for
both adapters.  (The flag is cleared by `logout` only, never by a failed
publish.) -/
theorem publish_error_keeps_session (s : Settings) (igR igR2 : InstaRemote)
    (fbR fbR2 : FbRemote) (caption message : List Char)
    (hashtags : Option (List (List Char))) (msg msg2 : String)
    (hig : igR.upload = Except.error msg) (hfb : fbR.putPhoto = Except.error msg2) :
    (InstagramService.post_photo s ⟨true⟩ igR caption hashtags).state = ⟨true⟩ ∧
    (InstagramService.post_photo s
        (InstagramService.post_photo s ⟨true⟩ igR caption hashtags).state
        igR2 caption hashtags).auth_attempted = false ∧
    (FacebookService.post_photo s ⟨true⟩ fbR message).state = ⟨true⟩ ∧
    (FacebookService.post_photo s
        (FacebookService.post_photo s ⟨true⟩ fbR message).state
        fbR2 message).auth_attempted = false := by
  have hst : (InstagramService.post_photo s ⟨true⟩ igR caption hashtags).state = ⟨true⟩ := by
    simp [InstagramService.post_photo, instaUpload, hig]
  have hstf : (FacebookService.post_photo s ⟨true⟩ fbR message).state = ⟨true⟩ := by
    simp [FacebookService.post_photo, fbUpload, hfb]
  refine ⟨hst, ?_, hstf, ?_⟩
  · rw [hst]
    cases hu : igR2.upload <;> simp [InstagramService.post_photo, instaUpload, hu]
  · rw [hstf]
    cases hu : fbR2.putPhoto <;> simp [FacebookService.post_photo, fbUpload, hu]

/-- Witness for C5 (amended): after a failing upload the Instagram flag is
still set. -/
theorem publish_error_keeps_session_witness :
    (InstagramService.post_photo sIG ⟨true⟩ ⟨true, Except.error "boom"⟩ [] none).state =
      ⟨true⟩ :=
  (publish_error_keeps_session sIG ⟨true, Except.error "boom"⟩ r0 f0 f0 [] [] none
    "boom" "network down" rfl rfl).1

/-! Claim C6 (amended): the adapter's fail-fast gate is the credential
predicate alone; the enabled flag is enforced by the coordinator, not by the
adapter. -/

/-- C6 (amended): the authentication operation fails fast — returning false,
leaving the state unchanged and performing no credential exchange — exactly
when the platform's credential-completeness predicate is false; the enabled
flag is not consulted, so a disabled platform with complete credentials is
still authenticated.  A remote exchange happens precisely when the platform is
credential-complete and the session flag is clear. -/
theorem auth_gate_is_credential_predicate (s : Settings) (igSt : InstaState) (fbSt : FbState)
    (okI okF : Bool) :
    (s.is_instagram_configured = false →
      InstagramService.login s igSt okI = ⟨false, igSt, false⟩) ∧
    ((InstagramService.login s igSt okI).attempted = true ↔
      (s.is_instagram_configured = true ∧ igSt.logged_in = false)) ∧
    (s.is_facebook_configured = false → fbInit s fbSt okF = ⟨false, fbSt, false⟩) ∧
    ((fbInit s fbSt okF).attempted = true ↔
      (s.is_facebook_configured = true ∧ fbSt.inited = false)) := by
  refine ⟨?_, ?_, ?_, ?_⟩
  · intro hc
    simp [InstagramService.login, hc]
  · cases hc : s.is_instagram_configured <;> cases hl : igSt.logged_in <;> cases okI <;>
      simp [InstagramService.login, hc, hl]
  · intro hc
    simp [fbInit, hc]
  · cases hc : s.is_facebook_configured <;> cases hl : fbSt.inited <;> cases okF <;>
      simp [fbInit, hc, hl]

/-- Witness for C6 (amended): on unconfigured settings, Instagram login fails
fast with no exchange and unchanged state. -/
theorem auth_gate_is_credential_predicate_witness :
    InstagramService.login s0 ⟨false⟩ true = ⟨false, ⟨false⟩, false⟩ :=
  (auth_gate_is_credential_predicate s0 ⟨false⟩ ⟨false⟩ true true).1 (by decide)

/-! Claim C7 (amended): the fields of a successful publish result. -/

theorem instaUpload_success_eq (st : InstaState) (remote : InstaRemote)
    (caption : List Char) (hashtags : Option (List (List Char))) (a : Bool)
    (hs : (instaUpload st remote caption hashtags a).result.success = some true) :
    ∃ m, remote.upload = Except.ok m ∧
      (instaUpload st remote caption hashtags a).result =
        { success := some true
          platform := some "instagram"
          media_id := some m.id
          media_code := some m.code
          url := some ("https://www.instagram.com/p/" ++ m.code ++ "/")
          caption_length := some (truncateCaption (buildFullCaption caption hashtags)).length
          hashtag_count := some (hashtags.getD []).length } := by
  cases hu : remote.upload with
  | ok m =>
      refine ⟨m, rfl, ?_⟩
      simp [instaUpload, hu]
  | error msg =>
      rw [show (instaUpload st remote caption hashtags a).result =
        { success := some false, platform := some "instagram", error := some msg } from by
          simp [instaUpload, hu]] at hs
      exact absurd hs (by simp)

theorem post_photo_success_eq (s : Settings) (igSt : InstaState) (igR : InstaRemote)
    (caption : List Char) (hashtags : Option (List (List Char)))
    (hs : (InstagramService.post_photo s igSt igR caption hashtags).result.success =
      some true) :
    ∃ m, igR.upload = Except.ok m ∧
      (InstagramService.post_photo s igSt igR caption hashtags).result =
        { success := some true
          platform := some "instagram"
          media_id := some m.id
          media_code := some m.code
          url := some ("https://www.instagram.com/p/" ++ m.code ++ "/")
          caption_length := some (truncateCaption (buildFullCaption caption hashtags)).length
          hashtag_count := some (hashtags.getD []).length } := by
  unfold InstagramService.post_photo at hs ⊢
  cases hl : igSt.logged_in
  · cases hr : (InstagramService.login s igSt igR.loginOk).result
    · simp only [hl, hr, Bool.not_false, Bool.not_true, if_true, if_false] at hs
      exact absurd hs (by simp)
    · simp only [hl, hr, Bool.not_false, Bool.not_true, if_true, if_false] at hs ⊢
      exact instaUpload_success_eq _ _ _ _ _ hs
  · simp only [hl, Bool.not_true, Bool.false_eq_true, if_false] at hs ⊢
    exact instaUpload_success_eq _ _ _ _ _ hs

theorem fbUpload_success_eq (st : FbState) (remote : FbRemote) (message : List Char)
    (a : Bool)
    (hs : (fbUpload st remote message a).result.success = some true) :
    ∃ rid, remote.putPhoto = Except.ok rid ∧
      (fbUpload st remote message a).result =
        { success := some true
          platform := some "facebook"
          post_id := some (rid.getD "")
          message_length := some message.length } := by
  cases hu : remote.putPhoto with
  | ok rid =>
      refine ⟨rid, rfl, ?_⟩
      simp [fbUpload, hu]
  | error msg =>
      rw [show (fbUpload st remote message a).result =
        { success := some false, platform := some "facebook", error := some msg } from by
          simp [fbUpload, hu]] at hs
      exact absurd hs (by simp)

theorem fb_post_photo_success_eq (s : Settings) (fbSt : FbState) (fbR : FbRemote)
    (message : List Char)
    (hs : (FacebookService.post_photo s fbSt fbR message).result.success = some true) :
    ∃ rid, fbR.putPhoto = Except.ok rid ∧
      (FacebookService.post_photo s fbSt fbR message).result =
        { success := some true
          platform := some "facebook"
          post_id := some (rid.getD "")
          message_length := some message.length } := by
  unfold FacebookService.post_photo at hs ⊢
  cases hl : fbSt.inited
  · cases hr : (fbInit s fbSt fbR.initOk).result
    · simp only [hl, hr, Bool.not_false, Bool.not_true, if_true, if_false] at hs
      exact absurd hs (by simp)
    · simp only [hl, hr, Bool.not_false, Bool.not_true, if_true, if_false] at hs ⊢
      exact fbUpload_success_eq _ _ _ _ hs
  · simp only [hl, Bool.not_true, Bool.false_eq_true, if_false] at hs ⊢
    exact fbUpload_success_eq _ _ _ _ hs

/-- C7 (amended): a successful Instagram publish carries all three fields —
the platform post identifier, the canonical permalink derived from the
returned media code, and the submitted content length; a successful Facebook
publish carries the platform post identifier and the submitted content length
but, contrary to the original claim, no canonical URL. -/
theorem success_result_fields (s : Settings) (igSt : InstaState) (fbSt : FbState)
    (igR : InstaRemote) (fbR : FbRemote) (caption message : List Char)
    (hashtags : Option (List (List Char))) :
    ((InstagramService.post_photo s igSt igR caption hashtags).result.success = some true →
      ∃ m, igR.upload = Except.ok m ∧
        (InstagramService.post_photo s igSt igR caption hashtags).result.media_id =
          some m.id ∧
        (InstagramService.post_photo s igSt igR caption hashtags).result.url =
          some ("https://www.instagram.com/p/" ++ m.code ++ "/") ∧
        (InstagramService.post_photo s igSt igR caption hashtags).result.caption_length =
          some (truncateCaption (buildFullCaption caption hashtags)).length) ∧
    ((FacebookService.post_photo s fbSt fbR message).result.success = some true →
      ∃ rid, fbR.putPhoto = Except.ok rid ∧
        (FacebookService.post_photo s fbSt fbR message).result.post_id =
          some (rid.getD "") ∧
        (FacebookService.post_photo s fbSt fbR message).result.message_length =
          some message.length ∧
        (FacebookService.post_photo s fbSt fbR message).result.url = none) := by
  constructor
  · intro hs
    obtain ⟨m, hu, he⟩ := post_photo_success_eq s igSt igR caption hashtags hs
    exact ⟨m, hu, by rw [he], by rw [he], by rw [he]⟩
  · intro hs
    obtain ⟨rid, hu, he⟩ := fb_post_photo_success_eq s fbSt fbR message hs
    exact ⟨rid, hu, by rw [he], by rw [he], by rw [he]⟩

/-- Witness for C7 (amended): on a successful remote upload from a logged-in
state, the Instagram result's fields are populated as described. -/
theorem success_result_fields_witness :
    ∃ m, rOk.upload = Except.ok m ∧
      (InstagramService.post_photo sIG ⟨true⟩ rOk "cap".data none).result.media_id =
        some m.id ∧
      (InstagramService.post_photo sIG ⟨true⟩ rOk "cap".data none).result.url =
        some ("https://www.instagram.com/p/" ++ m.code ++ "/") ∧
      (InstagramService.post_photo sIG ⟨true⟩ rOk "cap".data none).result.caption_length =
        some (truncateCaption (buildFullCaption "cap".data none)).length :=
  (success_result_fields sIG ⟨true⟩ ⟨true⟩ rOk fOk "cap".data "msg".data none).1 rfl

/-- Witness for C4 (amended): the concrete not-logged-in call takes the third
result shape. -/
theorem adapter_error_boundary_witness :
    instaResultShape (InstagramService.post_photo s0 ⟨false⟩ r0 [] none).result :=
  (adapter_error_boundary s0 ⟨false⟩ ⟨false⟩ r0 f0 [] [] none).1

/-- Witness for C2: on a configured Instagram whose upload succeeds, the
report's overall_success being true yields an entry with success true. -/
theorem overall_success_iff_witness :
    ∃ p r, (p, r) ∈ (SocialMediaService.post_to_platforms sIG ⟨true⟩ ⟨false⟩ rOk f0
        ["both"] [] none).report.results ∧ r.success = some true :=
  (overall_success_iff sIG ⟨true⟩ ⟨false⟩ rOk f0 ["both"] [] none).1 rfl

end App
